import Mathlib

/-!
Verification of the statement-construction and result-normalization core of
`sqlite_basic_orm.py` (class `SQLiteDB`), via a shallow embedding in Lean.

Modelling conventions:
* Python lists and tuples are both modelled as `List` (the source always tests
  `isinstance(x, list) or isinstance(x, tuple)`, treating them alike).
* Arguments that may be either a single string or a sequence of strings are
  modelled as `StrOrList := Sum String (List String)`.
* Value payloads for insert/update, which may be a bare scalar, a flat
  sequence, or a sequence of sequences, are modelled by the nested inductive
  `PyVal`.
* Code paths that raise an uncaught Python exception (`IndexError`,
  `TypeError` on subscription) are modelled by `Option`/`Except` results,
  with `none`/`.error` for the raising paths.
* SQL statement strings are built exactly as the source f-strings build them
  (including every space, newline, and tab).
-/

set_option autoImplicit false

namespace SqliteBasicOrm

variable {α : Type}

/-- Either a single string or a sequence of strings, the shape of most
`str`-or-`list` parameters in the source. -/
abbrev StrOrList := Sum String (List String)

/-- `str.join`-style separator join, mirroring Python `sep.join(ss)`. -/
def joinSep (sep : String) : List String → String
  | [] => ""
  | [s] => s
  | s :: t :: rest => s ++ sep ++ joinSep sep (t :: rest)

/-- Python string repetition `s * n`: `n` concatenated copies of `s`. -/
def strRepeat (s : String) : Nat → String
  | 0 => ""
  | n + 1 => s ++ strRepeat s n

/-- The number of occurrences of a character in a string. -/
def countCh (c : Char) (s : String) : Nat :=
  s.data.count c

/-- Boolean substring test on character lists (used to state that a piece of
text does or does not occur in a built statement). -/
def hasSub (pat : List Char) : List Char → Bool
  | [] => pat.isEmpty
  | c :: rest => pat.isPrefixOf (c :: rest) || hasSub pat rest

/-- A Python runtime value as the source's `values` parameters see it: either
a scalar (anything that is not a `list`/`tuple`) or a sequence of such
values. -/
inductive PyVal (α : Type) where
  | scalar : α → PyVal α
  | seq : List (PyVal α) → PyVal α

/-- `isinstance(v, list) or isinstance(v, tuple)`. -/
def PyVal.isSeq : PyVal α → Bool
  | .scalar _ => false
  | .seq _ => true

/-- The source's scalar-wrapping step `values[i] = (values[i],)` applied to one
element: a bare scalar becomes a one-element sequence, a sequence stays. -/
def wrap1 : PyVal α → PyVal α
  | .scalar a => .seq [.scalar a]
  | .seq l => .seq l

/-- Read a `PyVal` back as a scalar. -/
def asScalar : PyVal α → Option α
  | .scalar a => some a
  | .seq _ => none

/-- Read a `PyVal` back as one flat row of scalars (the shape the engine
accepts as one parameter tuple). -/
def asRow : PyVal α → Option (List α)
  | .scalar _ => none
  | .seq l => l.mapM asScalar

/-- The output shape of the result normalizer: either a flat sequence of
scalars / a single flattened row, or a sequence of rows. -/
inductive Pretty (α : Type) where
  | flat : List α → Pretty α
  | rows : List (List α) → Pretty α
  deriving DecidableEq

/-- `SQLiteDB.__prettify_output` (source lines 66-79): `None` is handled by
the callers' `Option` layer; for a row list, a single row is returned bare,
a multi-row list whose first row has width 1 is flattened to its scalars,
and anything else is returned unchanged. -/
def prettify_output [Inhabited α] (input_list : List (List α)) : Pretty α :=
  if input_list.length = 1 then
    Pretty.flat input_list.headI
  else if input_list.length > 1 ∧ input_list.headI.length = 1 then
    Pretty.flat (input_list.map List.headI)
  else
    Pretty.rows input_list

/-- The conditional application `if prettify_output: result =
self.__prettify_output(result)` in `sqlite_execute` / `sqlite_select`
(source lines 167-168 and 622-623): with the flag off, the raw row list is
returned unreshaped. -/
def prettifyIf [Inhabited α] (flag : Bool) (rows : List (List α)) : Pretty α :=
  if flag then prettify_output rows else Pretty.rows rows

/-- Concatenation of a list of strings, the accumulated effect of the
source's `statement += piece` loops. -/
def concatAll : List String → String
  | [] => ""
  | s :: rest => s ++ concatAll rest

/-- The result of the statement-building and value-classification phase of
`sqlite_insert`: the SQL text, whether `cursor.executemany` (rather than
`cursor.execute`) is chosen, and the transformed `values` payload passed to
it. -/
structure InsertPlan (α : Type) where
  statement : String
  execMany : Bool
  bound : PyVal α

/-- `SQLiteDB.sqlite_insert` (source lines 653-686), taking `column_names`
after the optional `column_names == '*'` metadata resolution. For a column
list of width > 1 the batch flag is `values[0]`'s sequence-ness; for width 1
(or a bare string column) any sequence payload becomes an `executemany`
batch whose scalar elements are wrapped into one-element rows, and a bare
scalar payload becomes the one-element tuple of a single `execute`.
`none` models the uncaught exceptions of the source: `values[0]` on a
non-sequence or empty `values` in the width > 1 branch, and
`column_names[0]` on an empty column list. -/
def sqlite_insert_plan (table : String) (column_names : StrOrList)
    (values : PyVal α) (replace : Bool) : Option (InsertPlan α) :=
  let ins_or_repl := if replace then "INSERT OR REPLACE INTO" else "INSERT INTO"
  match column_names with
  | .inr cols =>
    if 1 < cols.length then
      let stmt := ins_or_repl ++ " " ++ table ++ " (" ++ joinSep ", " cols ++
        ")\nVALUES(?" ++ strRepeat ",?" (cols.length - 1) ++ ")"
      match values with
      | .seq (v :: vs) => some ⟨stmt, PyVal.isSeq v, .seq (v :: vs)⟩
      | _ => none
    else
      match cols with
      | [] => none
      | c0 :: _ =>
        let stmt := ins_or_repl ++ " " ++ table ++ " (" ++ c0 ++ ")\nVALUES(?)"
        match values with
        | .seq l => some ⟨stmt, true, .seq (l.map wrap1)⟩
        | .scalar a => some ⟨stmt, false, .seq [.scalar a]⟩
  | .inl c =>
    let stmt := ins_or_repl ++ " " ++ table ++ " (" ++ c ++ ")\nVALUES(?)"
    match values with
    | .seq l => some ⟨stmt, true, .seq (l.map wrap1)⟩
    | .scalar a => some ⟨stmt, false, .seq [.scalar a]⟩

/-- The parameter rows the engine executes for a plan: one row per batch
element under `executemany`, or the single bound row under `execute`.
`none` models an engine binding error (a non-row element). -/
def planRows (p : InsertPlan α) : Option (List (List α)) :=
  if p.execMany then
    match p.bound with
    | .seq l => l.mapM asRow
    | .scalar _ => none
  else
    (asRow p.bound).map (fun r => [r])

/-- The result of the statement-building phase of `sqlite_update`: the SQL
text, the (always single) execution mode, and the bound values. -/
structure UpdatePlan (α : Type) where
  statement : String
  /-- `sqlite_update` always calls `cursor.execute` (source line 792), never
  `executemany`; the builder below therefore always sets this to `false`. -/
  execMany : Bool
  bound : PyVal α

/-- `SQLiteDB.sqlite_update` (source lines 766-792), taking `column_names`
after the optional `'*'` resolution: builds
`UPDATE t\nSET c0 = ?,\n\tc1 = ?,...\nWHERE cond;` and wraps a bare scalar
`values` into a one-element tuple; the payload is bound by one
`cursor.execute`. `none` models the uncaught `IndexError` of
`column_names[0]` on an empty column list. -/
def sqlite_update_plan (table : String) (column_names : StrOrList)
    (search_condition : String) (values : PyVal α) : Option (UpdatePlan α) :=
  match column_names with
  | .inr [] => none
  | .inr (c0 :: rest) =>
    some ⟨"UPDATE " ++ table ++ "\nSET " ++ (c0 ++ " = ?" ++
        concatAll (rest.map (fun c => ",\n\t" ++ c ++ " = ?"))) ++
      "\nWHERE " ++ search_condition ++ ";", false, wrap1 values⟩
  | .inl c =>
    some ⟨"UPDATE " ++ table ++ "\nSET " ++ (c ++ " = ?") ++
      "\nWHERE " ++ search_condition ++ ";", false, wrap1 values⟩

/-- The placeholder group `(?, ?, ...)` content for a column count: `?`
followed by `C - 1` repetitions of `,?`, exactly as the insert f-string
builds it. -/
def qgroup (C : Nat) : String :=
  "?" ++ strRepeat ",?" (C - 1)

/-- The question-mark character of SQL placeholders. -/
def qmark : Char := '?'

/-- The engine's response to one execute-and-fetch round trip: `some rows`
on success, `none` for an engine-level failure (a raised `sqlite3` error). -/
abbrev EngineResult (α : Type) := Option (List (List α))

/-- The result path of `SQLiteDB.sqlite_execute` (source lines 126-172) for
a statement without bound values: an engine failure is caught by the except
block, which rolls back, prints a diagnostic, and returns `None` (here
`none`); on success the fetched rows are optionally prettified. The
`return_list` tuple-to-list conversion is the identity in this embedding,
where rows are lists either way. -/
def sqlite_execute_result [Inhabited α] (engine : EngineResult α)
    (prettify : Bool) : Option (Pretty α) :=
  match engine with
  | none => none
  | some rows => some (prettifyIf prettify rows)

/-- `SQLiteDB.sqlite_tables` (source lines 347-364): a query failure is
caught (rollback + printed diagnostic), but the except block neither assigns
`result` nor returns, so control falls through to
`if prettify_output: result = ...` / `return result`, and reading the
never-assigned local `result` raises `UnboundLocalError` out of the
function — modelled as `.error`. On success the fetched names are
optionally prettified. -/
def sqlite_tables_result [Inhabited α] (engine : EngineResult α)
    (prettify : Bool) : Except String (Pretty α) :=
  match engine with
  | none => .error "UnboundLocalError: result"
  | some rows => .ok (prettifyIf prettify rows)

/-- `SQLiteDB.sqlite_table_info` (source lines 367-393): identical control
flow to `sqlite_tables` — the except block catches and rolls back, then the
fall-through use of the never-assigned `result` raises
`UnboundLocalError`. -/
def sqlite_table_info_result [Inhabited α] (engine : EngineResult α)
    (prettify : Bool) : Except String (Pretty α) :=
  match engine with
  | none => .error "UnboundLocalError: result"
  | some rows => .ok (prettifyIf prettify rows)

/-- The committed table set of the engine. Modelled from the spec for the
external engine collaborator (§5, §7): each DDL statement of a batch takes
effect as soon as it executes, and a later failing statement triggers only
the rollback of the current statement's transaction, never undoing earlier
successful statements of the batch; table names are unique. -/
structure Conn where
  tables : List String

/-- One `DROP TABLE name;` execution against the engine: removes the table,
or fails (no such table) leaving the state unchanged. -/
def execDropStmt (c : Conn) (name : String) : Option Conn :=
  if name ∈ c.tables then some ⟨c.tables.filter (fun t => t != name)⟩ else none

/-- The statement loop of `SQLiteDB.sqlite_drop_table` for a sequence of
names (source lines 282-291): statements execute in order; the first
failure is caught (rollback + diagnostic), stops the loop, and clears
`no_errors`. -/
def runDropLoop (c : Conn) : List String → Conn × Bool
  | [] => (c, true)
  | n :: ns =>
    match execDropStmt c n with
    | some c2 => runDropLoop c2 ns
    | none => (c, false)

/-- `SQLiteDB.sqlite_drop_table` (source lines 273-296) with
`disable_foreign_keys = False`: a single name is one statement, a sequence
becomes one statement per name executed by the loop. Returns the final
engine state and the `no_errors` flag. -/
def sqlite_drop_table (c : Conn) (table_name : StrOrList) : Conn × Bool :=
  match table_name with
  | .inl n =>
    match execDropStmt c n with
    | some c2 => (c2, true)
    | none => (c, false)
  | .inr names => runDropLoop c names

/-- Python indexing `x[i]` for a `str`-or-sequence value: a sequence yields
its element, a string yields the one-character string at that position;
out of range raises (`none`). -/
def pyIndex : StrOrList → Nat → Option String
  | .inr l, i => l.get? i
  | .inl s, i => (s.data.get? i).map (fun ch => ch.toString)

/-- `SQLiteDB.sqlite_add_column` (source lines 418-453) against an engine
that accepts every statement: the executed ALTER statements and the success
flag. For a sequence input one statement per definition is built and
executed in order. For a single string the statement text is built, but the
try block's `isinstance(statements, list)` reads the never-assigned local
`statements` and raises `UnboundLocalError`, which the function's own
except handler catches (rollback + error report): nothing is executed. -/
def sqlite_add_column (table : String) (column_definition : StrOrList) :
    List String × Bool :=
  match column_definition with
  | .inr defs =>
    (defs.map (fun d => "ALTER TABLE " ++ table ++ "\nADD COLUMN " ++ d ++ ";"), true)
  | .inl _ => ([], false)

/-- `SQLiteDB.sqlite_rename_column` (source lines 456-492) against an
accepting engine: for sequence input, one
`ALTER TABLE t\nRENAME COLUMN old[i] TO new[i];` per index of `old_name`,
executed in order (`none` models the uncaught `IndexError` raised while
building the statements — before the try block — when `new_name` runs out).
For a single-string `old_name` the same never-assigned `statements` local
raises inside the try block: caught, nothing executed. -/
def sqlite_rename_column (table : String) (old_name new_name : StrOrList) :
    Option (List String × Bool) :=
  match old_name with
  | .inr os =>
    ((List.range os.length).mapM (fun i => do
      let o ← pyIndex (.inr os) i
      let n ← pyIndex new_name i
      some ("ALTER TABLE " ++ table ++ "\nRENAME COLUMN " ++ o ++ " TO " ++ n ++ ";"))).map
      (fun stmts => (stmts, true))
  | .inl _ => some ([], false)

/-- Python's private-name mangling: inside `class Table`, the attribute
reference `self.__x` is compiled to `self._Table__x` when the name begins
with two underscores and does not end with two. -/
def pyMangle (cls attr : String) : String :=
  if "__".data.isPrefixOf attr.data && !("__".data.isSuffixOf attr.data) then
    "_" ++ cls ++ attr
  else attr

/-- `SQLiteDB.Table.__init__` (source lines 41-46) up to its first
attribute read-back: it assigns `self._SQLiteDB_obj` and `self._name`
(single leading underscore, hence unmangled), then reads
`self.__SQLiteDB_obj`, which the compiler mangles to
`_Table__SQLiteDB_obj`; the attribute table is searched for that name and
an `AttributeError` is raised when it is absent — before `table_info`,
`data` or `data_dict` are ever assigned. The attribute table maps attribute
names to the stored values. -/
def table_init (db name : String) : Except String (List (String × String)) :=
  let attrs := [(pyMangle "Table" "_SQLiteDB_obj", db), (pyMangle "Table" "_name", name)]
  let target := pyMangle "Table" "__SQLiteDB_obj"
  match attrs.lookup target with
  | some _ => .ok attrs
  | none => .error ("AttributeError: " ++ target)

/-- The single-quote character, used by Python `repr` of strings. -/
def squote : String := (Char.ofNat 39).toString

/-- Python `repr` of a quote-free string: the string between single
quotes. -/
def pyStrRepr (s : String) : String :=
  squote ++ s ++ squote

/-- Python `str`/f-string rendering of a list of (quote-free) strings:
`[` + comma-space-joined element reprs + `]`. -/
def pyListRepr (l : List String) : String :=
  "[" ++ joinSep ", " (l.map pyStrRepr) ++ "]"

/-- f-string interpolation `{x}` of a `str`-or-sequence value. -/
def renderElem : StrOrList → String
  | .inl s => s
  | .inr l => pyListRepr l

/-- The column part of `sqlite_select` (source lines 554-561): a list of
more than one name is joined with `,\n\t`, a one-element list contributes
its element (`column_names[0]`, `none` on an empty list), a bare string is
used as is. -/
def colsPart : StrOrList → Option String
  | .inl s => some s
  | .inr l => if 1 < l.length then some (joinSep ",\n\t" l) else l.get? 0

/-- One `{joins[0]} JOIN {joins[1]} ON {joins[2]}` clause of the multi-join
loop (source line 566); element access is Python indexing, so a string
element yields its characters. -/
def joinClause (keys : StrOrList) : Option String :=
  match pyIndex keys 0, pyIndex keys 1, pyIndex keys 2 with
  | some k0, some k1, some k2 => some ("\n\t " ++ k0 ++ " JOIN " ++ k1 ++ " ON " ++ k2)
  | _, _, _ => none

/-- The JOIN section of `sqlite_select` (source lines 563-568): with the
multi-join branch taken only when the first element is a sequence AND the
argument has more than one element; otherwise the argument itself is
indexed as a single (type, table, condition) triple. `none` models the
uncaught `IndexError` of `join[0]` / `join[1]` / `join[2]`. -/
def joinSec : Option (List StrOrList) → Option String
  | none => some ""
  | some [] => none
  | some (e :: rest) =>
    if e.isRight ∧ rest ≠ [] then
      (((e :: rest).mapM joinClause).map concatAll)
    else
      match rest with
      | j1 :: j2 :: _ =>
        some ("\n\t " ++ renderElem e ++ " JOIN " ++ renderElem j1 ++ " ON " ++ renderElem j2)
      | _ => none

/-- The WHERE section of `sqlite_select` (source lines 570-571): the
argument is spliced into `\nWHERE {where}` verbatim by the f-string — a
sequence argument is rendered as its Python list repr, never AND-joined. -/
def whereSec : Option StrOrList → String
  | none => ""
  | some w => "\nWHERE " ++ renderElem w

/-- The ORDER BY section of `sqlite_select` (source lines 573-581): for a
sequence, `ORDER BY\n\t{order_by[0]}` (with no leading newline, as in the
source) followed by `,\n\t`-prefixed remaining items; for a bare string,
`\nORDER BY {order_by}`. -/
def orderSec : Option StrOrList → Option String
  | none => some ""
  | some (.inr []) => none
  | some (.inr (o0 :: more)) =>
    some ("ORDER BY\n\t" ++ o0 ++ concatAll (more.map (fun o => ",\n\t" ++ o)))
  | some (.inl s) => some ("\nORDER BY " ++ s)

/-- The LIMIT section of `sqlite_select` (source lines 583-591): a sequence
of more than one element becomes `\nLIMIT a OFFSET b`, a one-element
sequence or bare value becomes `\nLIMIT a` (elements taken as their `str()`
text). -/
def limitSec : Option StrOrList → Option String
  | none => some ""
  | some (.inr []) => none
  | some (.inr [a]) => some ("\nLIMIT " ++ a)
  | some (.inr (a :: b :: _)) => some ("\nLIMIT " ++ a ++ " OFFSET " ++ b)
  | some (.inl s) => some ("\nLIMIT " ++ s)

/-- The GROUP BY section of `sqlite_select` (source lines 593-601):
analogous to ORDER BY but with a leading newline in the sequence branch. -/
def groupSec : Option StrOrList → Option String
  | none => some ""
  | some (.inr []) => none
  | some (.inr (g0 :: more)) =>
    some ("\nGROUP BY\n\t" ++ g0 ++ concatAll (more.map (fun g => ",\n\t" ++ g)))
  | some (.inl s) => some ("\nGROUP BY " ++ s)

/-- The HAVING section of `sqlite_select` (source lines 603-604). -/
def havingSec : Option String → String
  | none => ""
  | some h => "\nHAVING " ++ h

/-- `SQLiteDB.sqlite_select` statement construction (source lines 549-606):
`SELECT [DISTINCT] columns FROM table`, then the JOIN, WHERE, ORDER BY,
LIMIT, GROUP BY and HAVING sections in that fixed order, each contributing
nothing when its argument is `None`, and a final `;`. -/
def sqlite_select_stmt (table : String) (column_names : StrOrList)
    (distinct : Bool) (join : Option (List StrOrList)) (whereArg : Option StrOrList)
    (order_by : Option StrOrList) (limit_offset : Option StrOrList)
    (group_by : Option StrOrList) (havingArg : Option String) : Option String :=
  match colsPart column_names, joinSec join, orderSec order_by,
      limitSec limit_offset, groupSec group_by with
  | some cp, some js, some os, some ls, some gs =>
    some ((if distinct then "SELECT DISTINCT " else "SELECT ") ++ cp ++ "\nFROM " ++ table
      ++ js ++ whereSec whereArg ++ os ++ ls ++ gs ++ havingSec havingArg ++ ";")
  | _, _, _, _, _ => none

/-- The items `keys[3:]` of a foreign-key spec (source lines 219-221 and
224-226): for a string "tuple", Python indexing yields its characters. -/
def elemDrop3 : StrOrList → List String
  | .inr l => l.drop 3
  | .inl s => (s.data.drop 3).map (fun ch => ch.toString)

/-- One `FOREIGN KEY (keys[0]) REFERENCES keys[1] (keys[2])` clause plus the
extra clauses `keys[3:]`, from the multi-spec loop of `sqlite_create_table`
(source lines 217-221). -/
def fkClauseOfElem (e : StrOrList) : Option String :=
  match pyIndex e 0, pyIndex e 1, pyIndex e 2 with
  | some k0, some k1, some k2 =>
    some (",\n\tFOREIGN KEY (" ++ k0 ++ ") \n\t\tREFERENCES " ++ k1 ++ " (" ++ k2 ++ ")"
      ++ concatAll ((elemDrop3 e).map (fun x => "\n\t\t" ++ x)))
  | _, _, _ => none

/-- The single-spec branch of the foreign-key section (source lines
222-226): the argument itself is indexed as one tuple and its elements are
f-string rendered. `none` models the uncaught `IndexError` when it has
fewer than three elements. -/
def fkSingle (fk : List StrOrList) : Option String :=
  match fk with
  | e0 :: e1 :: e2 :: rest =>
    some (",\n\tFOREIGN KEY (" ++ renderElem e0 ++ ") \n\t\tREFERENCES " ++ renderElem e1 ++
      " (" ++ renderElem e2 ++ ")" ++ concatAll (rest.map (fun x => "\n\t\t" ++ renderElem x)))
  | _ => none

/-- The foreign-key section of `sqlite_create_table` (source lines
215-226): the multi-spec loop runs only when the first element is a
sequence AND the argument has more than one element; otherwise the argument
is treated as a single spec tuple. `none` models the uncaught `IndexError`
of `foreign_key[0]` on an empty argument or of the single branch on a too
short one. -/
def fkSec : Option (List StrOrList) → Option String
  | none => some ""
  | some [] => none
  | some (e :: rest) =>
    if e.isRight ∧ rest ≠ [] then
      (((e :: rest).mapM fkClauseOfElem).map concatAll)
    else fkSingle (e :: rest)

/-- The UNIQUE section of `sqlite_create_table` (source lines 203-207). -/
def uniqueSec : Option StrOrList → String
  | none => ""
  | some (.inr l) => ",\n\tUNIQUE (" ++ joinSep ", " l ++ ")"
  | some (.inl s) => ",\n\tUNIQUE (" ++ s ++ ")"

/-- The PRIMARY KEY section of `sqlite_create_table` (source lines
209-213). -/
def primaryKeySec : Option StrOrList → String
  | none => ""
  | some (.inr l) => ",\n\tPRIMARY KEY (" ++ joinSep ", " l ++ ")"
  | some (.inl s) => ",\n\tPRIMARY KEY (" ++ s ++ ")"

/-- The column-definitions part of `sqlite_create_table` (source lines
195-200). -/
def colDefsSec : StrOrList → Option String
  | .inl s => some s
  | .inr l => if 1 < l.length then some (joinSep ",\n\t" l) else l.get? 0

/-- `SQLiteDB.sqlite_create_table` statement construction (source lines
195-228): `CREATE TABLE t (defs`, the UNIQUE, PRIMARY KEY and FOREIGN KEY
sections, then the closing `\n);`. -/
def sqlite_create_table_stmt (table : String) (column_definitions : StrOrList)
    (unique primary_key : Option StrOrList) (foreign_key : Option (List StrOrList)) :
    Option String :=
  match colDefsSec column_definitions, fkSec foreign_key with
  | some cd, some fks =>
    some ("CREATE TABLE " ++ table ++ " (" ++ cd ++ uniqueSec unique ++
      primaryKeySec primary_key ++ fks ++ "\n);")
  | _, _ => none

/-- The foreign-key clause generated for a spec given as a tuple of plain
strings with at least three elements (statement vocabulary for the theorems
below). -/
def fkClauseStr (ks : List String) : String :=
  ",\n\tFOREIGN KEY (" ++ ks.getD 0 "" ++ ") \n\t\tREFERENCES " ++ ks.getD 1 "" ++
    " (" ++ ks.getD 2 "" ++ ")" ++ concatAll ((ks.drop 3).map (fun x => "\n\t\t" ++ x))

end SqliteBasicOrm

namespace SqliteBasicOrm

/-- Taking the head of each singleton row recovers the underlying scalars. -/
theorem headI_map_singleton {α : Type} [Inhabited α] (l : List α) :
    List.map List.headI (List.map (fun v => [v]) l) = l := by
  induction l with
  | nil => rfl
  | cons a t ih =>
    simp only [List.map_cons]
    rw [ih]
    rfl

/-- C3: `__prettify_output` maps an empty row list to itself (an empty
result, not an error); rows of width 1 (any nonzero count) flatten to their
bare scalars; a single row of width > 1 flattens to that row exactly when the
prettify flag is enabled; and several rows of width > 1 pass through
unchanged. -/
theorem C3_prettify {α : Type} [Inhabited α] :
    (prettify_output ([] : List (List α)) = Pretty.rows [])
    ∧ (∀ vs : List α, vs ≠ [] →
        prettify_output (vs.map (fun v => [v])) = Pretty.flat vs)
    ∧ (∀ r : List α, 1 < r.length →
        prettifyIf true [r] = Pretty.flat r ∧ prettifyIf false [r] = Pretty.rows [r])
    ∧ (∀ rows : List (List α), 1 < rows.length → (∀ r ∈ rows, 1 < r.length) →
        prettify_output rows = Pretty.rows rows) := by
  refine ⟨by simp [prettify_output], ?_, ?_, ?_⟩
  · intro vs hvs
    match vs with
    | [v] => simp [prettify_output]
    | v :: w :: rest =>
      have hlen : ¬(((v :: w :: rest).map (fun v => [v])).length = 1) := by simp
      have hcond : ((v :: w :: rest).map (fun v => [v])).length > 1 ∧
          ((v :: w :: rest).map (fun v => [v])).headI.length = 1 := by
        refine ⟨by simp, ?_⟩
        simp [List.headI]
      simp only [prettify_output, if_neg hlen, if_pos hcond]
      rw [headI_map_singleton]
  · intro r hr
    constructor
    · simp [prettifyIf, prettify_output]
    · simp [prettifyIf]
  · intro rows hlen hall
    match rows with
    | r :: rest =>
      have h1 : ¬((r :: rest).length = 1) := by
        simp only [List.length_cons] at hlen ⊢
        omega
      have hr1 : r.length ≠ 1 := by
        have := hall r (by simp)
        omega
      have h3 : ¬((r :: rest).length > 1 ∧ (r :: rest).headI.length = 1) :=
        fun h => hr1 h.2
      simp only [prettify_output, if_neg h1, if_neg h3]

/-- Witness for C3 at concrete inputs. -/
theorem C3_prettify_witness :
    (prettify_output ([] : List (List Int)) = Pretty.rows [])
    ∧ prettify_output (([7, 8, 9] : List Int).map (fun v => [v])) = Pretty.flat [7, 8, 9]
    ∧ (prettifyIf true [[(1 : Int), 2]] = Pretty.flat [1, 2]
        ∧ prettifyIf false [[(1 : Int), 2]] = Pretty.rows [[1, 2]])
    ∧ prettify_output [[(1 : Int), 2], [3, 4]] = Pretty.rows [[1, 2], [3, 4]] :=
  ⟨(C3_prettify (α := Int)).1,
   (C3_prettify (α := Int)).2.1 [7, 8, 9] (by decide),
   (C3_prettify (α := Int)).2.2.1 [1, 2] (by decide),
   (C3_prettify (α := Int)).2.2.2 [[1, 2], [3, 4]] (by decide) (by decide)⟩

/-- Reading back a list of wrapped scalars as parameter rows yields the
singleton rows. -/
theorem mapM_asRow_wrapped {α : Type} (vs : List α) :
    ((vs.map (fun v => PyVal.seq [PyVal.scalar v])).mapM asRow) =
      some (vs.map (fun v => [v])) := by
  induction vs with
  | nil => rfl
  | cons a t ih =>
    rw [List.map_cons, List.mapM_cons, ih]
    rfl

/-- Reading back a list of scalars as one flat parameter row succeeds. -/
theorem mapM_asScalar_map {α : Type} (vs : List α) :
    (vs.map PyVal.scalar).mapM asScalar = some vs := by
  induction vs with
  | nil => rfl
  | cons a t ih =>
    rw [List.map_cons, List.mapM_cons, ih]
    rfl

/-- C1: cardinality resolution in `sqlite_insert`. A one-column list with a
flat scalar sequence of length > 1 is classified multi-row: `executemany`
runs one single-column row per element. A column list of width C > 1 with a
flat sequence of C scalars is classified single-row: one `execute` binding
the one row. -/
theorem C1_insert_cardinality {α : Type} :
    (∀ (t c : String) (vs : List α), 1 < vs.length →
      ∃ p, sqlite_insert_plan t (.inr [c]) (.seq (vs.map PyVal.scalar)) false = some p
        ∧ p.execMany = true ∧ planRows p = some (vs.map (fun v => [v])))
    ∧ (∀ (t : String) (cols : List String) (vs : List α),
        1 < cols.length → vs.length = cols.length →
      ∃ p, sqlite_insert_plan t (.inr cols) (.seq (vs.map PyVal.scalar)) false = some p
        ∧ p.execMany = false ∧ planRows p = some [vs]) := by
  constructor
  · intro t c vs hvs
    refine ⟨_, rfl, rfl, ?_⟩
    simp only [planRows, if_pos rfl]
    have hmap : (vs.map PyVal.scalar).map wrap1 =
        vs.map (fun v => PyVal.seq [PyVal.scalar v]) := by
      rw [List.map_map]
      rfl
    rw [hmap]
    exact mapM_asRow_wrapped vs
  · intro t cols vs hc hv
    have hlen : 1 < vs.length := by omega
    match vs, hlen with
    | v :: vs', _ =>
      have hplan : sqlite_insert_plan t (.inr cols)
          (.seq ((v :: vs').map PyVal.scalar)) false =
          some ⟨"INSERT INTO" ++ " " ++ t ++ " (" ++ joinSep ", " cols ++
              ")\nVALUES(?" ++ strRepeat ",?" (cols.length - 1) ++ ")",
            false, .seq ((v :: vs').map PyVal.scalar)⟩ := by
        simp only [sqlite_insert_plan, List.map_cons]
        rw [if_pos hc]
        rfl
      refine ⟨_, hplan, rfl, ?_⟩
      show (asRow (PyVal.seq ((v :: vs').map PyVal.scalar))).map (fun r => [r]) = some [v :: vs']
      show (((v :: vs').map PyVal.scalar).mapM asScalar).map (fun r => [r]) = some [v :: vs']
      rw [mapM_asScalar_map]
      rfl

/-- Witness for C1: `insert(t, ["a"], [1,2,3])` becomes three one-column
rows, `insert(t, ["a","b"], [1,2])` becomes the single row `(1,2)`. -/
theorem C1_insert_cardinality_witness :
    (∃ p, sqlite_insert_plan "t" (.inr ["a"])
        (.seq (([1, 2, 3] : List Int).map PyVal.scalar)) false = some p
      ∧ p.execMany = true ∧ planRows p = some (([1, 2, 3] : List Int).map (fun v => [v])))
    ∧ (∃ p, sqlite_insert_plan "t" (.inr ["a", "b"])
        (.seq (([1, 2] : List Int).map PyVal.scalar)) false = some p
      ∧ p.execMany = false ∧ planRows p = some [[1, 2]]) :=
  ⟨C1_insert_cardinality.1 "t" "a" [1, 2, 3] (by decide),
   C1_insert_cardinality.2 "t" ["a", "b"] [1, 2] (by decide) (by decide)⟩

/-- C4 counterexample: on the same payload `[1, 2]` with the same one-column
list, `sqlite_insert` classifies multi-row (`executemany`) while
`sqlite_update` performs a single execution — the cardinality rule is not
applied identically in the two paths. -/
theorem C4_counterexample :
    ((sqlite_insert_plan "t" (.inr ["a"])
        (PyVal.seq [PyVal.scalar (1 : Int), PyVal.scalar 2]) false).map
      (fun p => p.execMany) = some true)
    ∧ ((sqlite_update_plan "t" (.inr ["a"]) "id = 1"
        (PyVal.seq [PyVal.scalar (1 : Int), PyVal.scalar 2])).map
      (fun p => p.execMany) = some false) :=
  ⟨rfl, rfl⟩

/-- C4 (amended): the insert path applies the cardinality classification
identically for `replace = False` and `replace = True` (same batch flag and
same transformed payload); the update path, however, always performs a
single execution, applying only the bare-scalar-to-one-element-tuple
wrapping, and never classifies a payload as multi-row. -/
theorem C4_amended {α : Type} (t : String) (cols : StrOrList) (v : PyVal α) :
    ((sqlite_insert_plan t cols v true).map (fun p => (p.execMany, p.bound)) =
      (sqlite_insert_plan t cols v false).map (fun p => (p.execMany, p.bound)))
    ∧ (∀ (cond : String) (q : UpdatePlan α),
        sqlite_update_plan t cols cond v = some q →
        q.execMany = false ∧ q.bound = wrap1 v) := by
  constructor
  · match cols with
    | .inl c => cases v <;> rfl
    | .inr cs =>
      simp only [sqlite_insert_plan]
      by_cases hc : 1 < cs.length
      · rw [if_pos hc, if_pos hc]
        cases v with
        | scalar a => rfl
        | seq l => cases l <;> rfl
      · rw [if_neg hc, if_neg hc]
        cases cs with
        | nil => rfl
        | cons c0 rest => cases v <;> rfl
  · intro cond q hq
    have hshape : ∃ s, q = ⟨s, false, wrap1 v⟩ := by
      match cols with
      | .inl c =>
        simp only [sqlite_update_plan, Option.some.injEq] at hq
        exact ⟨_, hq.symm⟩
      | .inr [] => simp [sqlite_update_plan] at hq
      | .inr (c0 :: rest) =>
        simp only [sqlite_update_plan, Option.some.injEq] at hq
        exact ⟨_, hq.symm⟩
    obtain ⟨s, rfl⟩ := hshape
    exact ⟨rfl, rfl⟩

/-- Witness for C4 (amended) at a concrete scalar payload. -/
theorem C4_amended_witness :
    ((sqlite_insert_plan "t" (.inr ["a"]) (PyVal.scalar (5 : Int)) true).map
        (fun p => (p.execMany, p.bound)) =
      (sqlite_insert_plan "t" (.inr ["a"]) (PyVal.scalar (5 : Int)) false).map
        (fun p => (p.execMany, p.bound)))
    ∧ (∃ q, sqlite_update_plan "t" (.inr ["a"]) "id = 1" (PyVal.scalar (5 : Int)) = some q
        ∧ q.execMany = false ∧ q.bound = wrap1 (PyVal.scalar 5)) := by
  refine ⟨(C4_amended "t" (.inr ["a"]) (PyVal.scalar (5 : Int))).1, ?_⟩
  exact ⟨_, rfl, (C4_amended "t" (.inr ["a"]) (PyVal.scalar (5 : Int))).2 "id = 1" _ rfl⟩

theorem countCh_append (c : Char) (a b : String) :
    countCh c (a ++ b) = countCh c a + countCh c b := by
  simp [countCh, String.data_append, List.count_append]

theorem countCh_joinSep (c : Char) (sep : String) (l : List String)
    (hsep : countCh c sep = 0) (hl : ∀ s ∈ l, countCh c s = 0) :
    countCh c (joinSep sep l) = 0 := by
  induction l with
  | nil => rfl
  | cons s rest ih =>
    match rest with
    | [] => exact hl s (by simp)
    | t :: rest' =>
      rw [joinSep, countCh_append, countCh_append]
      rw [hl s (by simp), hsep, ih (fun x hx => hl x (by simp [hx]))]

theorem countCh_strRepeat (c : Char) (s : String) (n : Nat) :
    countCh c (strRepeat s n) = n * countCh c s := by
  induction n with
  | zero =>
    show countCh c "" = 0 * countCh c s
    rw [Nat.zero_mul]
    rfl
  | succ m ih =>
    rw [strRepeat, countCh_append, ih]
    ring

theorem countCh_qgroup (C : Nat) (h : 1 ≤ C) :
    countCh qmark (qgroup C) = C := by
  rw [qgroup, countCh_append, countCh_strRepeat]
  have h1 : countCh qmark "?" = 1 := by decide
  have h2 : countCh qmark ",?" = 1 := by decide
  rw [h1, h2]
  omega

/-- Splitting the insert f-string so that the `VALUES` placeholder group
stands alone, for a multi-column statement. -/
theorem values_group_split (x y : String) :
    x ++ ")\nVALUES(?" ++ y ++ ")" = (x ++ ")") ++ "\nVALUES(" ++ ("?" ++ y) ++ ")" := by
  have h : (")" : String) ++ "\nVALUES(" ++ "?" = ")\nVALUES(?" := rfl
  calc x ++ ")\nVALUES(?" ++ y ++ ")"
      = x ++ (")" ++ "\nVALUES(" ++ "?") ++ y ++ ")" := by rw [h]
    _ = (x ++ ")") ++ "\nVALUES(" ++ ("?" ++ y) ++ ")" := by
        simp only [String.append_assoc]

/-- Splitting the insert f-string so that the `VALUES` placeholder group
stands alone, for a one-column statement. -/
theorem values_group_split_one (x : String) :
    x ++ ")\nVALUES(?)" = (x ++ ")") ++ "\nVALUES(" ++ "?" ++ ")" := by
  have h : (")" : String) ++ "\nVALUES(" ++ "?" ++ ")" = ")\nVALUES(?)" := rfl
  calc x ++ ")\nVALUES(?)"
      = x ++ (")" ++ "\nVALUES(" ++ "?" ++ ")") := by rw [← h]
    _ = (x ++ ")") ++ "\nVALUES(" ++ "?" ++ ")" := by
        simp only [String.append_assoc]

/-- C9: for every column list of width C >= 1 (and for a bare string column
name, C = 1), the statement built by `sqlite_insert` carries exactly one
placeholder group of exactly C question marks: it decomposes as a head with
no `?` followed by `VALUES(` and the C-placeholder group, provided the table
name and column names contain no `?` themselves. -/
theorem C9_placeholder_group {α : Type} :
    (∀ (t : String) (cols : List String) (values : PyVal α) (replace : Bool)
        (p : InsertPlan α),
      sqlite_insert_plan t (.inr cols) values replace = some p →
      countCh qmark t = 0 → (∀ c ∈ cols, countCh qmark c = 0) →
      ∃ head, p.statement = head ++ "\nVALUES(" ++ qgroup cols.length ++ ")"
        ∧ countCh qmark head = 0 ∧ countCh qmark (qgroup cols.length) = cols.length)
    ∧ (∀ (t c : String) (values : PyVal α) (replace : Bool) (p : InsertPlan α),
      sqlite_insert_plan t (.inl c) values replace = some p →
      countCh qmark t = 0 → countCh qmark c = 0 →
      ∃ head, p.statement = head ++ "\nVALUES(" ++ qgroup 1 ++ ")"
        ∧ countCh qmark head = 0 ∧ countCh qmark (qgroup 1) = 1) := by
  have hins : ∀ replace : Bool,
      countCh qmark (if replace then "INSERT OR REPLACE INTO" else "INSERT INTO") = 0 := by
    intro replace
    cases replace <;> decide
  constructor
  · intro t cols values replace p hp ht hcols
    have hne : cols ≠ [] := by
      intro h
      subst h
      simp [sqlite_insert_plan] at hp
    have hq : countCh qmark (qgroup cols.length) = cols.length :=
      countCh_qgroup cols.length (by cases cols <;> simp_all)
    by_cases hc : 1 < cols.length
    · have hstmt : p.statement =
          (if replace then "INSERT OR REPLACE INTO" else "INSERT INTO") ++ " " ++ t ++
            " (" ++ joinSep ", " cols ++ ")\nVALUES(?" ++
            strRepeat ",?" (cols.length - 1) ++ ")" := by
        simp only [sqlite_insert_plan] at hp
        rw [if_pos hc] at hp
        match values, hp with
        | .seq (v :: vs), hp =>
          simp only [Option.some.injEq] at hp
          rw [← hp]
      refine ⟨(if replace then "INSERT OR REPLACE INTO" else "INSERT INTO") ++ " " ++ t ++
        " (" ++ joinSep ", " cols ++ ")", ?_, ?_, hq⟩
      · rw [hstmt, values_group_split]
        rfl
      · simp only [countCh_append, hins, ht]
        rw [countCh_joinSep qmark ", " cols (by decide) hcols]
        decide
    · match cols, hne with
      | [c0], _ =>
        have hstmt : p.statement =
            (if replace then "INSERT OR REPLACE INTO" else "INSERT INTO") ++ " " ++ t ++
              " (" ++ c0 ++ ")\nVALUES(?)" := by
          simp only [sqlite_insert_plan] at hp
          rw [if_neg hc] at hp
          match values, hp with
          | .seq l, hp =>
            simp only [Option.some.injEq] at hp
            rw [← hp]
          | .scalar a, hp =>
            simp only [Option.some.injEq] at hp
            rw [← hp]
        refine ⟨(if replace then "INSERT OR REPLACE INTO" else "INSERT INTO") ++ " " ++ t ++
          " (" ++ c0 ++ ")", ?_, ?_, hq⟩
        · rw [hstmt, values_group_split_one]
          rfl
        · simp only [countCh_append, hins, ht]
          rw [hcols c0 (by simp)]
          decide
      | c0 :: c1 :: rest, _ => simp at hc
  · intro t c values replace p hp ht hc
    have hstmt : p.statement =
        (if replace then "INSERT OR REPLACE INTO" else "INSERT INTO") ++ " " ++ t ++
          " (" ++ c ++ ")\nVALUES(?)" := by
      simp only [sqlite_insert_plan] at hp
      match values, hp with
      | .seq l, hp =>
        simp only [Option.some.injEq] at hp
        rw [← hp]
      | .scalar a, hp =>
        simp only [Option.some.injEq] at hp
        rw [← hp]
    refine ⟨(if replace then "INSERT OR REPLACE INTO" else "INSERT INTO") ++ " " ++ t ++
      " (" ++ c ++ ")", ?_, ?_, by decide⟩
    · rw [hstmt, values_group_split_one]
      rfl
    · simp only [countCh_append, hins, ht]
      rw [hc]
      decide

/-- Witness for C9 at a two-column insert and a bare-string one-column
insert. -/
theorem C9_placeholder_group_witness :
    (∃ (p : InsertPlan Int) (head : String),
      sqlite_insert_plan "t" (.inr ["a", "b"])
          (PyVal.seq [PyVal.scalar (1 : Int), PyVal.scalar 2]) false = some p
        ∧ p.statement = head ++ "\nVALUES(" ++ qgroup 2 ++ ")"
        ∧ countCh qmark head = 0 ∧ countCh qmark (qgroup 2) = 2)
    ∧ (∃ (p : InsertPlan Int) (head : String),
      sqlite_insert_plan "t" (.inl "a") (PyVal.scalar (1 : Int)) false = some p
        ∧ p.statement = head ++ "\nVALUES(" ++ qgroup 1 ++ ")"
        ∧ countCh qmark head = 0 ∧ countCh qmark (qgroup 1) = 1) := by
  constructor
  · have h := C9_placeholder_group.1 "t" ["a", "b"]
      (PyVal.seq [PyVal.scalar (1 : Int), PyVal.scalar 2]) false _ rfl
      (by decide) (by decide)
    obtain ⟨head, h1, h2, h3⟩ := h
    exact ⟨_, head, rfl, h1, h2, h3⟩
  · have h := C9_placeholder_group.2 "t" "a" (PyVal.scalar (1 : Int)) false _ rfl
      (by decide) (by decide)
    obtain ⟨head, h1, h2, h3⟩ := h
    exact ⟨_, head, rfl, h1, h2, h3⟩

/-- C2: evaluation at an engine failure. `sqlite_execute` does return the
explicit `None` indicator after its local catch-and-rollback, but
`sqlite_tables` and `sqlite_table_info` raise `UnboundLocalError` out of
the core boundary (with either prettify setting): their except blocks catch
and roll back yet never assign or return `result`, so the claimed
never-propagate policy fails exactly where the claim asserts it in
particular. -/
theorem C2_propagation_failure :
    (sqlite_tables_result (none : EngineResult String) true =
      .error "UnboundLocalError: result")
    ∧ (sqlite_tables_result (none : EngineResult String) false =
      .error "UnboundLocalError: result")
    ∧ (sqlite_table_info_result (none : EngineResult String) true =
      .error "UnboundLocalError: result")
    ∧ (sqlite_table_info_result (none : EngineResult String) false =
      .error "UnboundLocalError: result")
    ∧ (sqlite_execute_result (none : EngineResult Int) true = none) :=
  ⟨rfl, rfl, rfl, rfl, rfl⟩

/-- C5: dropping a sequence of two existing tables removes both; and when
the first exists but the second does not, the first is still dropped and
the batch reports failure — the batch is non-atomic, earlier statements
keep their effect. -/
theorem C5_drop_batch :
    (∀ (ts : List String) (a b : String), a ∈ ts → b ∈ ts → a ≠ b →
      a ∉ (sqlite_drop_table ⟨ts⟩ (.inr [a, b])).1.tables
        ∧ b ∉ (sqlite_drop_table ⟨ts⟩ (.inr [a, b])).1.tables)
    ∧ (∀ (ts : List String) (a b : String), a ∈ ts → b ∉ ts →
      a ∉ (sqlite_drop_table ⟨ts⟩ (.inr [a, b])).1.tables
        ∧ (sqlite_drop_table ⟨ts⟩ (.inr [a, b])).2 = false) := by
  constructor
  · intro ts a b ha hb hab
    have h1 : execDropStmt ⟨ts⟩ a = some ⟨ts.filter (fun t => t != a)⟩ := by
      simp [execDropStmt, ha]
    have hb1 : b ∈ ts.filter (fun t => t != a) := by
      simp only [List.mem_filter, bne_iff_ne]
      exact ⟨hb, fun h => hab h.symm⟩
    have h2 : execDropStmt ⟨ts.filter (fun t => t != a)⟩ b =
        some ⟨(ts.filter (fun t => t != a)).filter (fun t => t != b)⟩ := by
      simp [execDropStmt, hb1]
    have hrun : sqlite_drop_table ⟨ts⟩ (.inr [a, b]) =
        (⟨(ts.filter (fun t => t != a)).filter (fun t => t != b)⟩, true) := by
      simp only [sqlite_drop_table, runDropLoop, h1, h2]
    rw [hrun]
    constructor
    · intro hmem
      have hin := (List.mem_filter.mp hmem).1
      have := (List.mem_filter.mp hin).2
      simp at this
    · intro hmem
      have := (List.mem_filter.mp hmem).2
      simp at this
  · intro ts a b ha hb
    have h1 : execDropStmt ⟨ts⟩ a = some ⟨ts.filter (fun t => t != a)⟩ := by
      simp [execDropStmt, ha]
    have hb1 : b ∉ ts.filter (fun t => t != a) :=
      fun h => hb (List.mem_filter.mp h).1
    have h2 : execDropStmt ⟨ts.filter (fun t => t != a)⟩ b = none := by
      simp [execDropStmt, hb1]
    have hrun : sqlite_drop_table ⟨ts⟩ (.inr [a, b]) =
        (⟨ts.filter (fun t => t != a)⟩, false) := by
      simp only [sqlite_drop_table, runDropLoop, h1, h2]
    rw [hrun]
    refine ⟨?_, rfl⟩
    intro hmem
    have := (List.mem_filter.mp hmem).2
    simp at this

/-- Witness for C5 on concrete table sets. -/
theorem C5_drop_batch_witness :
    (("t1" : String) ∉ (sqlite_drop_table ⟨["t1", "t2"]⟩ (.inr ["t1", "t2"])).1.tables
      ∧ ("t2" : String) ∉ (sqlite_drop_table ⟨["t1", "t2"]⟩ (.inr ["t1", "t2"])).1.tables)
    ∧ (("t1" : String) ∉ (sqlite_drop_table ⟨["t1"]⟩ (.inr ["t1", "zz"])).1.tables
      ∧ (sqlite_drop_table ⟨["t1"]⟩ (.inr ["t1", "zz"])).2 = false) :=
  ⟨C5_drop_batch.1 ["t1", "t2"] "t1" "t2" (by decide) (by decide) (by decide),
   C5_drop_batch.2 ["t1"] "t1" "zz" (by decide) (by decide)⟩

/-- C6: evaluation of `sqlite_add_column` and `sqlite_rename_column` at a
single string and at parallel sequences. With a sequence, one ALTER TABLE
statement per element executes in the given order; with a single string,
the never-assigned `statements` local raises `UnboundLocalError` inside the
try block, the handler reports an error, and no statement at all is
executed — contradicting the claimed single-statement execution. -/
theorem C6_alter_single_string :
    (sqlite_add_column "t" (.inl "c INTEGER") = ([], false))
    ∧ (sqlite_add_column "t" (.inr ["c1 INTEGER", "c2 TEXT"]) =
        (["ALTER TABLE t\nADD COLUMN c1 INTEGER;",
          "ALTER TABLE t\nADD COLUMN c2 TEXT;"], true))
    ∧ (sqlite_rename_column "t" (.inl "a") (.inl "b") = some ([], false))
    ∧ (sqlite_rename_column "t" (.inr ["a", "b"]) (.inr ["x", "y"]) =
        some (["ALTER TABLE t\nRENAME COLUMN a TO x;",
          "ALTER TABLE t\nRENAME COLUMN b TO y;"], true)) :=
  ⟨rfl, rfl, rfl, rfl⟩

/-- C10: constructing `SQLiteDB.Table` raises `AttributeError` for every
session object and table name: `__init__` stores the session under
`_SQLiteDB_obj` but reads it back through the mangled, never-assigned
`_Table__SQLiteDB_obj`. -/
theorem C10_table_init_raises (db name : String) :
    table_init db name = .error "AttributeError: _Table__SQLiteDB_obj" := rfl

theorem ne_empty_of_data (s : String) (h : s.data ≠ []) : s ≠ "" := by
  intro he
  subst he
  exact h rfl

theorem append_data_ne_nil (s t : String) (h : s.data ≠ []) : (s ++ t).data ≠ [] := by
  rw [String.data_append]
  intro he
  exact h (List.append_eq_nil.mp he).1

theorem joinClause_data_ne_nil (e : StrOrList) (c : String)
    (h : joinClause e = some c) : c.data ≠ [] := by
  rcases h0 : pyIndex e 0 with _ | k0 <;> rcases h1 : pyIndex e 1 with _ | k1 <;>
    rcases h2 : pyIndex e 2 with _ | k2 <;> simp [joinClause, h0, h1, h2] at h
  rw [← h]
  exact append_data_ne_nil _ _ (append_data_ne_nil _ _ (append_data_ne_nil _ _
    (append_data_ne_nil _ _ (append_data_ne_nil _ _ (by decide)))))

theorem joinSec_ne_empty (j : List StrOrList) (js : String)
    (h : joinSec (some j) = some js) : js ≠ "" := by
  match j with
  | [] => simp [joinSec] at h
  | e :: rest =>
    simp only [joinSec] at h
    by_cases hc : e.isRight ∧ rest ≠ []
    · rw [if_pos hc] at h
      rcases hm : (e :: rest).mapM joinClause with _ | cls
      · rw [hm] at h
        simp at h
      · rw [hm] at h
        simp only [Option.map_some', Option.some.injEq] at h
        rcases hcl : joinClause e with _ | c0
        · rw [List.mapM_cons, hcl] at hm
          simp at hm
        · rcases hrest : rest.mapM joinClause with _ | cs
          · rw [List.mapM_cons, hcl, hrest] at hm
            simp at hm
          · rw [List.mapM_cons, hcl, hrest] at hm
            simp at hm
            subst hm
            subst h
            apply ne_empty_of_data
            show (c0 ++ concatAll cs).data ≠ []
            exact append_data_ne_nil _ _ (joinClause_data_ne_nil e c0 hcl)
    · rw [if_neg hc] at h
      match rest with
      | [] => simp at h
      | [j1] => simp at h
      | j1 :: j2 :: more =>
        simp only [Option.some.injEq] at h
        subst h
        apply ne_empty_of_data
        exact append_data_ne_nil _ _ (append_data_ne_nil _ _ (append_data_ne_nil _ _
          (append_data_ne_nil _ _ (append_data_ne_nil _ _ (by decide)))))

theorem orderSec_ne_empty (o : StrOrList) (os : String)
    (h : orderSec (some o) = some os) : os ≠ "" := by
  match o with
  | .inl s =>
    simp only [orderSec, Option.some.injEq] at h
    subst h
    exact ne_empty_of_data _ (append_data_ne_nil _ _ (by decide))
  | .inr [] => simp [orderSec] at h
  | .inr (o0 :: more) =>
    simp only [orderSec, Option.some.injEq] at h
    subst h
    exact ne_empty_of_data _ (append_data_ne_nil _ _ (append_data_ne_nil _ _ (by decide)))

theorem limitSec_ne_empty (l : StrOrList) (ls : String)
    (h : limitSec (some l) = some ls) : ls ≠ "" := by
  match l with
  | .inl s =>
    simp only [limitSec, Option.some.injEq] at h
    subst h
    exact ne_empty_of_data _ (append_data_ne_nil _ _ (by decide))
  | .inr [] => simp [limitSec] at h
  | .inr [a] =>
    simp only [limitSec, Option.some.injEq] at h
    subst h
    exact ne_empty_of_data _ (append_data_ne_nil _ _ (by decide))
  | .inr (a :: b :: more) =>
    simp only [limitSec, Option.some.injEq] at h
    subst h
    exact ne_empty_of_data _ (append_data_ne_nil _ _ (append_data_ne_nil _ _
      (append_data_ne_nil _ _ (by decide))))

theorem groupSec_ne_empty (g : StrOrList) (gs : String)
    (h : groupSec (some g) = some gs) : gs ≠ "" := by
  match g with
  | .inl s =>
    simp only [groupSec, Option.some.injEq] at h
    subst h
    exact ne_empty_of_data _ (append_data_ne_nil _ _ (by decide))
  | .inr [] => simp [groupSec] at h
  | .inr (g0 :: more) =>
    simp only [groupSec, Option.some.injEq] at h
    subst h
    exact ne_empty_of_data _ (append_data_ne_nil _ _ (append_data_ne_nil _ _ (by decide)))

/-- C7 counterexample: with the condition sequence `["a=1", "b=2"]` as the
WHERE argument, the built statement does not contain the AND-joined text
`a=1 AND b=2` anywhere — the argument is f-string rendered as its Python
list repr, so the claimed AND-joining of condition sequences is false. -/
theorem C7_counterexample :
    (sqlite_select_stmt "t" (.inl "*") false none (some (.inr ["a=1", "b=2"]))
        none none none none).isSome = true
    ∧ (sqlite_select_stmt "t" (.inl "*") false none (some (.inr ["a=1", "b=2"]))
        none none none none).all
      (fun s => !(hasSub "a=1 AND b=2".data s.data)) = true := by
  exact ⟨rfl, by decide⟩

/-- C7 (amended): the statement built by `sqlite_select` is `SELECT` (or
`SELECT DISTINCT`) followed by the columns and `FROM table`, then the JOIN,
WHERE, ORDER BY, LIMIT (with optional OFFSET), GROUP BY and HAVING sections
in that fixed order and a final `;`; each optional section is empty exactly
when its argument is absent. The WHERE argument is spliced verbatim
(rendered by the host default string conversion), not AND-joined. -/
theorem C7_amended (table : String) (column_names : StrOrList) (distinct : Bool)
    (join : Option (List StrOrList))
    (whereArg order_by limit_offset group_by : Option StrOrList)
    (havingArg : Option String) (cp js os ls gs : String)
    (hcp : colsPart column_names = some cp) (hjs : joinSec join = some js)
    (hos : orderSec order_by = some os) (hls : limitSec limit_offset = some ls)
    (hgs : groupSec group_by = some gs) :
    sqlite_select_stmt table column_names distinct join whereArg order_by limit_offset
        group_by havingArg =
      some ((if distinct then "SELECT DISTINCT " else "SELECT ") ++ cp ++ "\nFROM " ++ table
        ++ js ++ whereSec whereArg ++ os ++ ls ++ gs ++ havingSec havingArg ++ ";")
    ∧ (js = "" ↔ join = none)
    ∧ (whereSec whereArg = "" ↔ whereArg = none)
    ∧ (os = "" ↔ order_by = none)
    ∧ (ls = "" ↔ limit_offset = none)
    ∧ (gs = "" ↔ group_by = none)
    ∧ (havingSec havingArg = "" ↔ havingArg = none) := by
  refine ⟨?_, ?_, ?_, ?_, ?_, ?_, ?_⟩
  · simp only [sqlite_select_stmt, hcp, hjs, hos, hls, hgs]
  · cases join with
    | none =>
      simp only [joinSec, Option.some.injEq] at hjs
      subst hjs
      simp
    | some j =>
      constructor
      · intro h
        exact absurd h (joinSec_ne_empty j js hjs)
      · intro h
        exact Option.noConfusion h
  · cases whereArg with
    | none => simp [whereSec]
    | some w =>
      constructor
      · intro h
        exact absurd h (ne_empty_of_data _ (append_data_ne_nil _ _ (by decide)))
      · intro h
        exact Option.noConfusion h
  · cases order_by with
    | none =>
      simp only [orderSec, Option.some.injEq] at hos
      subst hos
      simp
    | some o =>
      constructor
      · intro h
        exact absurd h (orderSec_ne_empty o os hos)
      · intro h
        exact Option.noConfusion h
  · cases limit_offset with
    | none =>
      simp only [limitSec, Option.some.injEq] at hls
      subst hls
      simp
    | some l =>
      constructor
      · intro h
        exact absurd h (limitSec_ne_empty l ls hls)
      · intro h
        exact Option.noConfusion h
  · cases group_by with
    | none =>
      simp only [groupSec, Option.some.injEq] at hgs
      subst hgs
      simp
    | some g =>
      constructor
      · intro h
        exact absurd h (groupSec_ne_empty g gs hgs)
      · intro h
        exact Option.noConfusion h
  · cases havingArg with
    | none => simp [havingSec]
    | some hv =>
      constructor
      · intro h
        exact absurd h (ne_empty_of_data _ (append_data_ne_nil _ _ (by decide)))
      · intro h
        exact Option.noConfusion h

/-- Witness for C7 (amended) with every clause section present. -/
theorem C7_amended_witness :
    ∃ cp js os ls gs : String,
      colsPart (.inr ["a", "b"]) = some cp
      ∧ joinSec (some [.inr ["INNER", "t2", "t.x = t2.x"],
          .inr ["LEFT", "t3", "t.y = t3.y"]]) = some js
      ∧ orderSec (some (.inr ["a ASC", "b DESC"])) = some os
      ∧ limitSec (some (.inr ["10", "5"])) = some ls
      ∧ groupSec (some (.inr ["a"])) = some gs
      ∧ sqlite_select_stmt "t" (.inr ["a", "b"]) true
          (some [.inr ["INNER", "t2", "t.x = t2.x"], .inr ["LEFT", "t3", "t.y = t3.y"]])
          (some (.inl "x > 0")) (some (.inr ["a ASC", "b DESC"])) (some (.inr ["10", "5"]))
          (some (.inr ["a"])) (some "COUNT(a) > 1") =
        some ((if true then "SELECT DISTINCT " else "SELECT ") ++ cp ++ "\nFROM " ++ "t"
          ++ js ++ whereSec (some (.inl "x > 0")) ++ os ++ ls ++ gs
          ++ havingSec (some "COUNT(a) > 1") ++ ";")
      ∧ (js = "" ↔ (some [.inr ["INNER", "t2", "t.x = t2.x"],
          .inr ["LEFT", "t3", "t.y = t3.y"]] : Option (List StrOrList)) = none) := by
  refine ⟨_, _, _, _, _, rfl, rfl, rfl, rfl, rfl, ?_, ?_⟩
  · exact (C7_amended "t" (.inr ["a", "b"]) true
      (some [.inr ["INNER", "t2", "t.x = t2.x"], .inr ["LEFT", "t3", "t.y = t3.y"]])
      (some (.inl "x > 0")) (some (.inr ["a ASC", "b DESC"])) (some (.inr ["10", "5"]))
      (some (.inr ["a"])) (some "COUNT(a) > 1") _ _ _ _ _ rfl rfl rfl rfl rfl).1
  · exact (C7_amended "t" (.inr ["a", "b"]) true
      (some [.inr ["INNER", "t2", "t.x = t2.x"], .inr ["LEFT", "t3", "t.y = t3.y"]])
      (some (.inl "x > 0")) (some (.inr ["a ASC", "b DESC"])) (some (.inr ["10", "5"]))
      (some (.inr ["a"])) (some "COUNT(a) > 1") _ _ _ _ _ rfl rfl rfl rfl rfl).2.1

/-- C8 counterexample: a sequence containing exactly one 3-tuple foreign-key
spec is misclassified by the `len > 1` conjunct of the disambiguation: the
whole sequence is indexed as if it were a single tuple and `foreign_key[1]`
raises `IndexError`, so no statement is produced at all — the claim that a
sequence of 3+-tuples is accepted purely by inspecting the first element
fails. -/
theorem C8_counterexample :
    sqlite_create_table_stmt "t" (.inl "a INTEGER") none none
      (some [.inr ["c", "t2", "c2"]]) = none := rfl

theorem map_render_inl (l : List String) :
    (l.map Sum.inl).map (fun x => "\n\t\t" ++ renderElem x) =
      l.map (fun x => "\n\t\t" ++ x) := by
  induction l with
  | nil => rfl
  | cons a t ih =>
    rw [List.map_cons, List.map_cons, List.map_cons, ih]
    rfl

theorem fkClauseOfElem_inr (ks : List String) (h : 3 ≤ ks.length) :
    fkClauseOfElem (Sum.inr ks) = some (fkClauseStr ks) := by
  match ks, h with
  | k0 :: k1 :: k2 :: rest, _ => rfl

theorem mapM_fkClause (tps : List (List String)) (h : ∀ ks ∈ tps, 3 ≤ ks.length) :
    (tps.map Sum.inr).mapM fkClauseOfElem = some (tps.map fkClauseStr) := by
  induction tps with
  | nil => rfl
  | cons a l ih =>
    rw [List.map_cons, List.mapM_cons, fkClauseOfElem_inr a (h a (by simp)),
      ih (fun ks hk => h ks (by simp [hk])), List.map_cons]
    rfl

/-- C8 (amended): the foreign-key argument is accepted as a single tuple of
at least three plain elements, or as a sequence of at least two such
tuples; the disambiguation requires both that the first element be a
sequence and that the argument have more than one element (a singleton
sequence of tuples is misclassified, see the counterexample). One
`FOREIGN KEY (col) REFERENCES table(col)` clause plus any extra clauses is
appended per spec, and every produced statement terminates with the closing
parenthesis and semicolon `\n);`. -/
theorem C8_amended :
    (∀ (t cd : String) (ks : List String), 3 ≤ ks.length →
      sqlite_create_table_stmt t (.inl cd) none none (some (ks.map Sum.inl)) =
        some ("CREATE TABLE " ++ t ++ " (" ++ cd ++ fkClauseStr ks ++ "\n);"))
    ∧ (∀ (t cd : String) (tps : List (List String)), 2 ≤ tps.length →
        (∀ ks ∈ tps, 3 ≤ ks.length) →
      sqlite_create_table_stmt t (.inl cd) none none (some (tps.map Sum.inr)) =
        some ("CREATE TABLE " ++ t ++ " (" ++ cd ++
          concatAll (tps.map fkClauseStr) ++ "\n);")) := by
  constructor
  · intro t cd ks h3
    match ks, h3 with
    | k0 :: k1 :: k2 :: rest, _ =>
      have hfk : fkSec (some ((k0 :: k1 :: k2 :: rest).map Sum.inl)) =
          some (fkClauseStr (k0 :: k1 :: k2 :: rest)) := by
        simp only [List.map_cons, fkSec]
        rw [if_neg (fun hcon => by simpa [Sum.isRight] using hcon.1)]
        simp only [fkSingle, Option.some.injEq]
        rw [map_render_inl]
        rfl
      simp only [sqlite_create_table_stmt, colDefsSec, hfk, uniqueSec, primaryKeySec,
        String.append_empty]
  · intro t cd tps h2 hall
    match tps, h2 with
    | a :: b :: rest, _ =>
      have hmapM : ((Sum.inr a : StrOrList) :: Sum.inr b :: rest.map Sum.inr).mapM
          fkClauseOfElem =
          some (fkClauseStr a :: fkClauseStr b :: rest.map fkClauseStr) := by
        have h := mapM_fkClause (a :: b :: rest) hall
        simpa using h
      have hfk : fkSec (some ((a :: b :: rest).map Sum.inr)) =
          some (concatAll ((a :: b :: rest).map fkClauseStr)) := by
        simp only [List.map_cons, fkSec]
        rw [if_pos ⟨rfl, by simp⟩]
        rw [hmapM]
        rfl
      simp only [sqlite_create_table_stmt, colDefsSec, hfk, uniqueSec, primaryKeySec,
        String.append_empty]

/-- Witness for C8 (amended): a single 4-tuple spec with one extra clause,
and a sequence of two 3-tuple specs. -/
theorem C8_amended_witness :
    (sqlite_create_table_stmt "t" (.inl "a INTEGER") none none
        (some ((["c", "t2", "c2", "ON DELETE CASCADE"] : List String).map Sum.inl)) =
      some ("CREATE TABLE " ++ "t" ++ " (" ++ "a INTEGER" ++
        fkClauseStr ["c", "t2", "c2", "ON DELETE CASCADE"] ++ "\n);"))
    ∧ (sqlite_create_table_stmt "t" (.inl "a INTEGER") none none
        (some (([["c1", "t2", "x"], ["c2", "t3", "y"]] : List (List String)).map Sum.inr)) =
      some ("CREATE TABLE " ++ "t" ++ " (" ++ "a INTEGER" ++
        concatAll (([["c1", "t2", "x"], ["c2", "t3", "y"]] :
          List (List String)).map fkClauseStr) ++ "\n);")) :=
  ⟨C8_amended.1 "t" "a INTEGER" ["c", "t2", "c2", "ON DELETE CASCADE"] (by decide),
   C8_amended.2 "t" "a INTEGER" [["c1", "t2", "x"], ["c2", "t3", "y"]]
     (by decide) (by decide)⟩

end SqliteBasicOrm
